import Mathlib

/-!
Verification of the Lucidia marketing site (BlackRoad-OS/lucidia-platform).

The development shallowly embeds the client code of the two pages and the
build configuration:

* `src/web/app/pricing/page.tsx` — the pricing-plan literals, the
  billing-interval filter `filteredPlans`, the `handleCheckout` handler and
  the per-plan button `disabled` condition;
* `src/web/app/page.tsx` — the landing page's email field state;
* `src/web/next.config.js` — the `/api/:path*` rewrite rule.

Event handlers become pure functions from an explicit page state to a new
state paired with a trace of the browser effects they perform (navigations,
external checkout calls, console errors, alert dialogs, state-setter calls),
so that properties about "what the handler does in every case" are ordinary
theorems about those functions.
-/

namespace Lucidia

/-- JavaScript `String.prototype.startsWith` over explicit character lists:
`charsStartWith hay needle` holds when `needle` is an initial segment of
`hay`. -/
def charsStartWith : List Char → List Char → Bool
  | _, [] => true
  | [], _ :: _ => false
  | c :: cs, d :: ds => c = d && charsStartWith cs ds

/-- JavaScript `String.prototype.includes` over explicit character lists:
`charsInclude hay needle` holds when `needle` occurs contiguously inside
`hay`. -/
def charsInclude : List Char → List Char → Bool
  | [], needle => needle.isEmpty
  | c :: cs, needle => charsStartWith (c :: cs) needle || charsInclude cs needle

/-- Model of the JavaScript call `hay.includes(needle)`, written
`hay.includes(needle)` used by the pricing filter. -/
def strIncludes (hay needle : String) : Bool :=
  charsInclude hay.toList needle.toList

/-- Suffix test: `strEndsWith hay needle` holds when `hay` ends with the string
`needle`; used to state what suffix a rewrite destination carries. -/
def strEndsWith (hay needle : String) : Bool :=
  charsStartWith hay.toList.reverse needle.toList.reverse

/-- One pricing-plan record, after the literals of
`src/web/app/pricing/page.tsx` lines 8–84.  Optional fields (`interval`,
`popular`, `savings`, `href`) default exactly like the absent keys of the
TypeScript object literals. -/
structure Plan where
  id : String
  name : String
  price : ℚ
  interval : Option String := none
  description : String
  features : List String
  popular : Bool := false
  savings : Option String := none
  cta : String
  href : Option String := none
deriving DecidableEq, Repr

/-- The hardcoded `plans` array of the pricing page (lines 8–84). -/
def plans : List Plan :=
  [ { id := "free"
    , name := "Free"
    , price := 0
    , interval := none
    , description := "Perfect for trying it out"
    , features := ["10 problems/month", "Basic explanations", "Text input only"]
    , cta := "Get Started"
    , href := some "/signup" }
  , { id := "student_monthly"
    , name := "Student"
    , price := 9.99
    , interval := some "month"
    , description := "Everything you need to succeed"
    , features := ["Unlimited problems", "Visual explanations", "Photo & voice upload",
                   "Persistent memory", "All subjects", "7-day free trial"]
    , popular := true
    , cta := "Start Free Trial" }
  , { id := "student_yearly"
    , name := "Student Annual"
    , price := 99.99
    , interval := some "year"
    , description := "Best value for committed learners"
    , features := ["Everything in Student Monthly", "2 months free", "Priority support"]
    , savings := some "Save $20/year"
    , cta := "Start Free Trial" }
  , { id := "family_monthly"
    , name := "Family"
    , price := 19.99
    , interval := some "month"
    , description := "For the whole household"
    , features := ["Up to 5 users", "Everything in Student", "Parent dashboard",
                   "Progress tracking", "Priority support", "7-day free trial"]
    , cta := "Start Free Trial" }
  , { id := "family_yearly"
    , name := "Family Annual"
    , price := 199.99
    , interval := some "year"
    , description := "Best value for families"
    , features := ["Everything in Family Monthly", "2 months free", "Dedicated support"]
    , savings := some "Save $40/year"
    , cta := "Start Free Trial" } ]

/-- The two values of the `billingInterval` React state
(the union of the string literals month and year, line 88). -/
inductive BillingInterval
  | month
  | year
deriving DecidableEq, Repr

/-- The filter predicate of `filteredPlans` (lines 109–115): the free plan
always passes; otherwise the plan id must contain `monthly` for the month
toggle and `yearly` for the year toggle. -/
def planMatches (billing : BillingInterval) (plan : Plan) : Bool :=
  if plan.id = "free" then true
  else if billing = BillingInterval.month then strIncludes plan.id "monthly"
  else strIncludes plan.id "yearly"

/-- Definition of `filteredPlans` (lines 109–115): the plans shown for the chosen billing
toggle. -/
def filteredPlans (billing : BillingInterval) : List Plan :=
  plans.filter (planMatches billing)

/-- The substring the filter tests for each toggle value. -/
def intervalNeedle : BillingInterval → String
  | BillingInterval.month => "monthly"
  | BillingInterval.year => "yearly"

/-- Outcome of the awaited external call
`redirectToCheckout(planId, userId)`: the promise either resolves or
rejects.  The helper lives outside this repository (`@/lib/stripe`), so its
outcome is a parameter of the handler model. -/
inductive CheckoutOutcome
  | resolves
  | rejects
deriving DecidableEq, Repr

/-- Browser effects performed by one run of `handleCheckout`, in the order
the source performs them: `window.location.href` assignments, calls to the
external `redirectToCheckout` helper (plan id paired with user id),
`console.error` messages, `alert` dialogs, and `setLoading` state-setter
calls. -/
structure CheckoutTrace where
  navigations : List String
  checkoutCalls : List (String × String)
  consoleErrors : List String
  alerts : List String
  setLoadingCalls : List (Option String)
deriving DecidableEq, Repr

/-- The mutable state of the pricing page component: the module-level
`plans` array object, the `loading` state (line 87, a plan id or null) and
the `billingInterval` state (line 88). -/
structure PageWorld where
  planList : List Plan
  loading : Option String
  billingInterval : BillingInterval
deriving DecidableEq, Repr

/-- Model of `handleCheckout` (lines 90–107).  For the free plan it assigns
the string `/signup` to `window.location.href` and returns at once.  Otherwise it runs
`setLoading(planId)`, builds `userId` as the string `user_` followed by
`Date.now()` (passed in as `now`), awaits `redirectToCheckout(planId,
userId)`, and on rejection logs a console error and raises the alert; the
`finally` block runs `setLoading(null)` on both paths. -/
def handleCheckout (planId : String) (now : Nat) (outcome : CheckoutOutcome)
    (w : PageWorld) : PageWorld × CheckoutTrace :=
  if planId = "free" then
    (w, { navigations := ["/signup"], checkoutCalls := [], consoleErrors := []
        , alerts := [], setLoadingCalls := [] })
  else
    let userId := "user_" ++ toString now
    match outcome with
    | CheckoutOutcome.resolves =>
        ({ w with loading := none },
         { navigations := [], checkoutCalls := [(planId, userId)]
         , consoleErrors := [], alerts := []
         , setLoadingCalls := [some planId, none] })
    | CheckoutOutcome.rejects =>
        ({ w with loading := none },
         { navigations := [], checkoutCalls := [(planId, userId)]
         , consoleErrors := ["Checkout error:"]
         , alerts := ["Something went wrong. Please try again."]
         , setLoadingCalls := [some planId, none] })

/-- The `disabled` condition of a plan's subscribe button (line 228):
`loading === plan.id`. -/
def buttonDisabled (loading : Option String) (planId : String) : Bool :=
  loading = some planId

/-- The user interactions the pricing page wires to handlers: the two
billing-toggle buttons (lines 156 and 166) and a plan's subscribe button
(line 227). -/
inductive PageEvent
  | chooseMonth
  | chooseYear
  | subscribe (planId : String) (now : Nat) (outcome : CheckoutOutcome)

/-- One step of the pricing page: dispatch a user interaction to its
handler.  The toggle buttons call `setBillingInterval`; the subscribe
button calls `handleCheckout(plan.id)`. -/
def pageStep (e : PageEvent) (w : PageWorld) : PageWorld × CheckoutTrace :=
  match e with
  | PageEvent.chooseMonth =>
      ({ w with billingInterval := BillingInterval.month },
       { navigations := [], checkoutCalls := [], consoleErrors := []
       , alerts := [], setLoadingCalls := [] })
  | PageEvent.chooseYear =>
      ({ w with billingInterval := BillingInterval.year },
       { navigations := [], checkoutCalls := [], consoleErrors := []
       , alerts := [], setLoadingCalls := [] })
  | PageEvent.subscribe planId now outcome => handleCheckout planId now outcome w

/-- The plans rendered by a given page state, as the source computes them
from the `plans` array object held in the state. -/
def filteredPlansOf (w : PageWorld) : List Plan :=
  w.planList.filter (planMatches w.billingInterval)

/-- One rewrite entry returned by `rewrites()` in `next.config.js`. -/
structure RewriteRule where
  source : String
  destination : String
deriving DecidableEq, Repr

/-- JavaScript `a || b` on an optional environment-variable string: an
unset variable and the empty string are falsy, any other value is taken
verbatim. -/
def jsOrDefault (v : Option String) (dflt : String) : String :=
  match v with
  | none => dflt
  | some s => if s = "" then dflt else s

/-- The `rewrites()` array of `src/web/next.config.js` (lines 7–14), as a
function of the `API_URL` environment variable. -/
def rewrites (apiUrl : Option String) : List RewriteRule :=
  [ { source := "/api/:path*"
    , destination := jsOrDefault apiUrl "http://localhost:8000/api/:path*" } ]

/-- The landing page's component state (`src/web/app/page.tsx` line 21):
the single `email` string. -/
structure LandingState where
  email : String
deriving DecidableEq, Repr

/-- Externally visible effects of a landing-page interaction: network
transmissions and persisted values.  The source wires no handler that
produces either. -/
structure LandingTrace where
  transmissions : List String
  persisted : List String
deriving DecidableEq, Repr

/-- The landing page interactions wired to anything at all: the email
input's `onChange` (line 327), which calls `setEmail` with the typed value,
and a click on the adjacent `Get Started Free` button (line 330), which has
no handler and is in no form. -/
inductive LandingEvent
  | editEmail (value : String)
  | clickGetStarted

/-- One step of the landing page: `editEmail` runs
`setEmail(e.target.value)`; the button click does nothing.  Neither
transmits nor persists anything. -/
def landingStep (e : LandingEvent) (s : LandingState) : LandingState × LandingTrace :=
  match e with
  | LandingEvent.editEmail value => ({ email := value }, { transmissions := [], persisted := [] })
  | LandingEvent.clickGetStarted => (s, { transmissions := [], persisted := [] })

/-- Run a sequence of landing-page interactions, accumulating the effect
traces. -/
def landingRun : List LandingEvent → LandingState → LandingState × LandingTrace
  | [], s => (s, { transmissions := [], persisted := [] })
  | e :: es, s =>
      let p1 := landingStep e s
      let p2 := landingRun es p1.fst
      (p2.fst,
       { transmissions := p1.snd.transmissions ++ p2.snd.transmissions
       , persisted := p1.snd.persisted ++ p2.snd.persisted })

/-- C1: for every value of the billing-interval toggle, `filteredPlans`
contains exactly the plans of the hardcoded `plans` array whose identifier
contains the substring matching that toggle (`monthly` for month, `yearly`
for year), plus the free plan, which always passes the filter. -/
theorem c1_filteredPlans_exact (b : BillingInterval) (p : Plan) :
    p ∈ filteredPlans b ↔
      p ∈ plans ∧ (p.id = "free" ∨ strIncludes p.id (intervalNeedle b) = true) := by
  have hmatch : planMatches b p = true ↔
      (p.id = "free" ∨ strIncludes p.id (intervalNeedle b) = true) := by
    cases b <;> by_cases hfree : p.id = "free" <;>
      simp [planMatches, intervalNeedle, hfree]
  simp [filteredPlans, List.mem_filter, hmatch]

/-- C10: for both toggle values, `filteredPlans` is a sublist of `plans`
(so the authored order is preserved) and consists of exactly three plans:
the free plan first, then the student plan and the family plan of the
selected interval. -/
theorem c10_filteredPlans_order (b : BillingInterval) :
    List.Sublist (filteredPlans b) plans ∧
      (filteredPlans b).length = 3 ∧
      (filteredPlans b).map Plan.id =
        (match b with
         | BillingInterval.month => ["free", "student_monthly", "family_monthly"]
         | BillingInterval.year => ["free", "student_yearly", "family_yearly"]) := by
  cases b <;> exact ⟨List.filter_sublist _, by decide, by decide⟩

/-- C2 failing input: the claim states that for every value of the
`API_URL` environment variable the rewrite destination carries the
`/api/:path*` suffix.  The code evaluates
`process.env.API_URL || http-default` and, whenever the variable is set,
uses its raw value as the whole destination: at `API_URL =
http://example.com` the destination is `http://example.com`, which does not
end in `/api/:path*`, so the request path is dropped.  Only the unset case
matches the claim, producing `http://localhost:8000/api/:path*`. -/
theorem c2_rewrite_drops_path_suffix :
    rewrites (some "http://example.com") =
      [{ source := "/api/:path*", destination := "http://example.com" }] ∧
    strEndsWith "http://example.com" "/api/:path*" = false ∧
    rewrites none =
      [{ source := "/api/:path*"
       , destination := "http://localhost:8000/api/:path*" }] :=
  ⟨by decide, by decide, by decide⟩

/-- C4: invoking `handleCheckout` with the free plan id assigns `/signup`
to `window.location.href` and returns: the state (in particular `loading`)
is unchanged, `redirectToCheckout` is never called and no `setLoading` call
is made. -/
theorem c4_free_navigates_to_signup (now : Nat) (outcome : CheckoutOutcome)
    (w : PageWorld) :
    handleCheckout "free" now outcome w =
      (w, { navigations := ["/signup"], checkoutCalls := [], consoleErrors := []
          , alerts := [], setLoadingCalls := [] }) := by
  simp [handleCheckout]

/-- C3: for every non-free plan id, after `handleCheckout` completes —
whether the awaited `redirectToCheckout` call resolves or rejects — the
`loading` state is null (the `finally` block always runs `setLoading(null)`
last), so no plan's button is left disabled. -/
theorem c3_loading_clears (planId : String) (now : Nat)
    (outcome : CheckoutOutcome) (w : PageWorld) (h : planId ≠ "free") :
    (handleCheckout planId now outcome w).fst.loading = none ∧
    (handleCheckout planId now outcome w).snd.setLoadingCalls.getLast? = some none ∧
    ∀ pid, buttonDisabled (handleCheckout planId now outcome w).fst.loading pid = false := by
  cases outcome <;> simp [handleCheckout, h, buttonDisabled]

/-- Witness for C3 at the student monthly plan with a rejected checkout. -/
theorem c3_loading_clears_witness :
    ("student_monthly" : String) ≠ "free" ∧
    (handleCheckout "student_monthly" 0 CheckoutOutcome.rejects
      { planList := plans, loading := none
      , billingInterval := BillingInterval.month }).fst.loading = none ∧
    buttonDisabled (handleCheckout "student_monthly" 0 CheckoutOutcome.rejects
      { planList := plans, loading := none
      , billingInterval := BillingInterval.month }).fst.loading "student_monthly" = false :=
  have h := c3_loading_clears "student_monthly" 0 CheckoutOutcome.rejects
    { planList := plans, loading := none, billingInterval := BillingInterval.month }
    (by decide)
  ⟨by decide, h.1, h.2.2 "student_monthly"⟩

/-- C5: for every non-free plan id, `handleCheckout` calls
`redirectToCheckout` exactly once, and the blocking alert is raised if and
only if that awaited call rejects. -/
theorem c5_one_call_alert_iff_reject (planId : String) (now : Nat)
    (outcome : CheckoutOutcome) (w : PageWorld) (h : planId ≠ "free") :
    (handleCheckout planId now outcome w).snd.checkoutCalls.length = 1 ∧
    ((handleCheckout planId now outcome w).snd.alerts ≠ [] ↔
      outcome = CheckoutOutcome.rejects) := by
  cases outcome <;> simp [handleCheckout, h]

/-- Witness for C5 at the family yearly plan: once with a resolving call
(no alert) and once with a rejecting call (alert raised). -/
theorem c5_one_call_alert_iff_reject_witness :
    ("family_yearly" : String) ≠ "free" ∧
    (handleCheckout "family_yearly" 7 CheckoutOutcome.rejects
      { planList := plans, loading := none
      , billingInterval := BillingInterval.year }).snd.checkoutCalls.length = 1 ∧
    ((handleCheckout "family_yearly" 7 CheckoutOutcome.rejects
      { planList := plans, loading := none
      , billingInterval := BillingInterval.year }).snd.alerts ≠ [] ↔
      CheckoutOutcome.rejects = CheckoutOutcome.rejects) :=
  have h := c5_one_call_alert_iff_reject "family_yearly" 7 CheckoutOutcome.rejects
    { planList := plans, loading := none, billingInterval := BillingInterval.year }
    (by decide)
  ⟨by decide, h.1, h.2⟩

/-- C6: for every non-free plan id, `handleCheckout` invokes
`redirectToCheckout` with that plan id and a user id that is the string
`user_` followed by the `Date.now()` timestamp — a placeholder, not real
identity. -/
theorem c6_checkout_placeholder_user (planId : String) (now : Nat)
    (outcome : CheckoutOutcome) (w : PageWorld) (h : planId ≠ "free") :
    (handleCheckout planId now outcome w).snd.checkoutCalls =
      [(planId, "user_" ++ toString now)] := by
  cases outcome <;> simp [handleCheckout, h]

/-- Witness for C6: the student yearly plan at timestamp 1700000000000
produces exactly one call carrying the id user_1700000000000. -/
theorem c6_checkout_placeholder_user_witness :
    ("student_yearly" : String) ≠ "free" ∧
    (handleCheckout "student_yearly" 1700000000000 CheckoutOutcome.resolves
      { planList := plans, loading := none
      , billingInterval := BillingInterval.year }).snd.checkoutCalls =
      [("student_yearly", "user_" ++ toString 1700000000000)] :=
  ⟨by decide,
   c6_checkout_placeholder_user "student_yearly" 1700000000000
     CheckoutOutcome.resolves
     { planList := plans, loading := none, billingInterval := BillingInterval.year }
     (by decide)⟩

/-- C7: the `plans` array is never mutated: every interaction of the
pricing page (either billing-toggle button and any subscribe click, with
either checkout outcome) leaves the plan list of the page state unchanged,
and the rendered list is recomputed by the pure filter from that same
array. -/
theorem c7_plans_never_mutated (e : PageEvent) (w : PageWorld) :
    (pageStep e w).fst.planList = w.planList ∧
    filteredPlansOf (pageStep e w).fst =
      List.filter (planMatches (pageStep e w).fst.billingInterval) w.planList := by
  have hpres : (pageStep e w).fst.planList = w.planList := by
    cases e with
    | chooseMonth => rfl
    | chooseYear => rfl
    | subscribe planId now outcome =>
        by_cases h : planId = "free"
        · simp [pageStep, handleCheckout, h]
        · cases outcome <;> simp [pageStep, handleCheckout, h]
  exact ⟨hpres, by rw [filteredPlansOf, hpres]⟩

/-- C8: the landing page's email value lives only in transient local
component state.  Any sequence of interactions (edits of the input, clicks
on the adjacent Get Started Free button, which has no handler) transmits
and persists nothing, an edit replaces the local state with the typed
value and does nothing else, and the button click leaves the state
untouched. -/
theorem c8_email_stays_local (es : List LandingEvent) (s : LandingState)
    (v : String) :
    (landingRun es s).snd = { transmissions := [], persisted := [] } ∧
    landingStep (LandingEvent.editEmail v) s =
      ({ email := v }, { transmissions := [], persisted := [] }) ∧
    landingStep LandingEvent.clickGetStarted s =
      (s, { transmissions := [], persisted := [] }) := by
  refine ⟨?_, rfl, rfl⟩
  induction es generalizing s with
  | nil => rfl
  | cons e es ih => cases e <;> simp [landingRun, landingStep, ih]

/-- A list of plans whose projected ids are pairwise distinct keeps at most
one element under any filter that only accepts a fixed id. -/
theorem filter_fixed_id_length_le_one (x : String) (q : Plan → Bool)
    (hq : ∀ p, q p = true → p.id = x) :
    ∀ l : List Plan, (l.map Plan.id).Nodup → (l.filter q).length ≤ 1 := by
  intro l
  induction l with
  | nil => intro _; simp
  | cons a t ih =>
      intro hnd
      rw [List.map_cons, List.nodup_cons] at hnd
      by_cases hqa : q a = true
      · have ht : t.filter q = [] := by
          rw [List.filter_eq_nil_iff]
          intro b hb hqb
          exact hnd.1 ((hq a hqa).symm ▸ (hq b hqb) ▸ List.mem_map_of_mem Plan.id hb)
        simp [List.filter_cons, hqa, ht]
      · simp only [List.filter_cons, hqa, if_neg]
        simpa using ih hnd.2

/-- C9: the `loading` state is a single plan id or null, a rendered plan's
button is disabled exactly when `loading` equals that plan's id, and
because the rendered plans carry pairwise distinct ids, at most one of the
rendered subscribe buttons is disabled at any moment. -/
theorem c9_at_most_one_disabled (loading : Option String)
    (b : BillingInterval) :
    (∀ pid, buttonDisabled loading pid = true ↔ loading = some pid) ∧
    ((filteredPlans b).filter (fun p => buttonDisabled loading p.id)).length ≤ 1 := by
  refine ⟨fun pid => by simp [buttonDisabled], ?_⟩
  cases loading with
  | none => cases b <;> decide
  | some x =>
      refine filter_fixed_id_length_le_one x _ ?_ (filteredPlans b) ?_
      · intro p hp
        have : (some x : Option String) = some p.id := by
          simpa [buttonDisabled] using hp
        exact (Option.some.inj this).symm
      · cases b <;> decide

end Lucidia
